import Mathlib

/-!
Shallow embedding of `oracle_challenge.py`: a NEAR/USD price oracle that
fetches quotes from five public APIs, parses each response, enforces a
minimum-quorum policy, computes the median, and validates the resulting
submission record.

Modelling conventions:
* Python floats are modelled as exact rationals (`ℚ`); no claim under
  consideration depends on binary floating-point rounding.
* JSON payloads (`Dict[str, Any]` values) are modelled by the inductive
  `Json`; Python dicts are association lists whose lookup returns the
  first binding (Python dicts have unique keys, so this is exact).
* Python exceptions are modelled by `PyErr`; fallible code returns
  `Except PyErr α`.
* Impure inputs (the network fetch, the wall clock) are threaded as
  explicit parameters, so each function is the pure core of the Python
  function with its effects injected.
-/

/-- A JSON value as decoded by `json.loads`: the payload type every parser
and the validator consume. -/
inductive Json : Type where
  | null : Json
  | bool (b : Bool) : Json
  | num (q : ℚ) : Json
  | str (s : String) : Json
  | arr (elems : List Json) : Json
  | obj (fields : List (String × Json)) : Json
deriving Repr

/-- Python exceptions that the program can raise or catch.  `valueError`
carries the fixed message text plus the values interpolated into the
Python f-string, so theorems can speak about the error content without
reproducing CPython repr output digit for digit. -/
inductive PyErr : Type where
  | keyError (key : String) : PyErr
  | typeError (msg : String) : PyErr
  | indexError (msg : String) : PyErr
  | attributeError (msg : String) : PyErr
  | valueError (msg : String) (args : List Json) : PyErr
  | runtimeError (msg : String) : PyErr
  | statisticsError (msg : String) : PyErr
  | httpError (msg : String) : PyErr
  | urlError (msg : String) : PyErr
  | timeoutError (msg : String) : PyErr
  | jsonDecodeError (msg : String) : PyErr
deriving Repr

/-- Dict lookup: first binding wins (exact for Python dicts, whose keys are
unique). -/
def dlookup : List (String × Json) → String → Option Json
  | [], _ => none
  | (k, v) :: rest, key => if k = key then some v else dlookup rest key

/-- Python subscript `value[key]` with a string key: dict lookup
(`KeyError` when absent), `TypeError` on any non-dict. -/
def pyIndexStr : Json → String → Except PyErr Json
  | .obj kvs, k =>
    match dlookup kvs k with
    | some v => .ok v
    | none => .error (.keyError k)
  | .str _, _ => .error (.typeError "string indices must be integers")
  | .arr _, _ => .error (.typeError "list indices must be integers")
  | _, _ => .error (.typeError "object is not subscriptable")

/-- Python subscript `value[i]` with a non-negative integer index: list
element or `IndexError`; string indexing yields a one-character string or
`IndexError`; dicts raise `KeyError` (the integer is not a key); anything
else raises `TypeError`. -/
def pyIndexNat : Json → Nat → Except PyErr Json
  | .arr xs, n =>
    match xs.get? n with
    | some v => .ok v
    | none => .error (.indexError "list index out of range")
  | .str s, n =>
    match s.toList.get? n with
    | some c => .ok (.str (String.mk [c]))
    | none => .error (.indexError "string index out of range")
  | .obj _, n => .error (.keyError (toString n))
  | _, _ => .error (.typeError "object is not subscriptable")

/-- Python `payload.get(key)`: `None` default on a dict, `AttributeError`
on anything that is not a dict. -/
def pyGet : Json → String → Except PyErr Json
  | .obj kvs, k => .ok ((dlookup kvs k).getD .null)
  | _, _ => .error (.attributeError "object has no attribute get")

/-- Python truthiness of a decoded JSON value. -/
def pyTruthy : Json → Bool
  | .null => false
  | .bool b => b
  | .num q => decide (q ≠ 0)
  | .str s => !s.isEmpty
  | .arr xs => !xs.isEmpty
  | .obj kvs => !kvs.isEmpty

/-- Digits of a numeral, most significant first, as a natural number.
Total; validity of the characters is checked separately. -/
def natOfDigits (cs : List Char) : Nat :=
  cs.foldl (fun n c => n * 10 + (c.toNat - 48)) 0

/-- An unsigned decimal numeral: `digits`, `digits.digits`, `digits.` or
`.digits`. -/
def parseUnsigned (cs : List Char) : Option ℚ :=
  match cs.splitOn '.' with
  | [ip] =>
    if ip.isEmpty ∨ ¬ ip.all Char.isDigit then none
    else some (natOfDigits ip : ℚ)
  | [ip, fp] =>
    if (ip.isEmpty ∧ fp.isEmpty) ∨ ¬ ip.all Char.isDigit ∨ ¬ fp.all Char.isDigit then none
    else some ((natOfDigits ip : ℚ) + (natOfDigits fp : ℚ) / ((10 : ℚ) ^ fp.length))
  | _ => none

/-- The decimal strings accepted by Python `float()` on API price fields:
optional surrounding whitespace, optional sign, decimal digits with an
optional fractional part.  (Exponent forms, underscores and `inf`/`nan`
are outside the fragment the program ever receives and are not modelled;
`inf`/`nan` have no rational counterpart.) -/
def parseDecimal (s : String) : Option ℚ :=
  match s.trim.toList with
  | [] => none
  | '+' :: rest => parseUnsigned rest
  | '-' :: rest => (parseUnsigned rest).map Neg.neg
  | cs => parseUnsigned cs

/-- Python `float(x)` on a decoded JSON value: numbers pass through, bools
coerce to 0/1, strings are parsed as decimals (`ValueError` on failure),
everything else raises `TypeError`. -/
def pyFloat : Json → Except PyErr ℚ
  | .num q => .ok q
  | .bool b => .ok (cond b 1 0)
  | .str s =>
    match parseDecimal s with
    | some q => .ok q
    | none => .error (.valueError "could not convert string to float" [.str s])
  | .null => .error (.typeError "float argument must be a string or a real number")
  | .arr _ => .error (.typeError "float argument must be a string or a real number")
  | .obj _ => .error (.typeError "float argument must be a string or a real number")

/-- Rendering used by Python `str()`/`repr()` on non-string values.
Faithful on the cases the claims exercise (strings, booleans, `None`);
numbers and containers get a canonical rendering rather than CPython
shortest-round-trip float repr, which no claim depends on. -/
def pyReprQ (q : ℚ) : String :=
  if q.den = 1 then toString q.num ++ ".0" else toString q.num ++ "/" ++ toString q.den

/-- Python `str(x)` on a decoded JSON value; the identity on strings. -/
def pyStr : Json → String
  | .str s => s
  | .null => "None"
  | .bool true => "True"
  | .bool false => "False"
  | .num q => pyReprQ q
  | .arr _ => "<list>"
  | .obj _ => "<dict>"

/-! ### The five response parsers (`oracle_challenge.py` lines 30–54) -/

/-- Model of `parse_coingecko`: `float(payload["near"]["usd"])`. -/
def parse_coingecko (payload : Json) : Except PyErr ℚ :=
  match pyIndexStr payload "near" with
  | .error e => .error e
  | .ok inner =>
    match pyIndexStr inner "usd" with
    | .error e => .error e
    | .ok v => pyFloat v

/-- Model of `parse_coinbase`: `float(payload["data"]["amount"])`. -/
def parse_coinbase (payload : Json) : Except PyErr ℚ :=
  match pyIndexStr payload "data" with
  | .error e => .error e
  | .ok inner =>
    match pyIndexStr inner "amount" with
    | .error e => .error e
    | .ok v => pyFloat v

/-- Model of `parse_binance`: `float(payload["price"])`. -/
def parse_binance (payload : Json) : Except PyErr ℚ :=
  match pyIndexStr payload "price" with
  | .error e => .error e
  | .ok v => pyFloat v

/-- Model of `parse_kraken`: raise on a truthy top-level `error`, require `result`
to be a non-empty dict, then `float(result[first_key]["c"][0])` where
`first_key` is the first key of `result` (so `result[first_key]` is the
first binding). -/
def parse_kraken (payload : Json) : Except PyErr ℚ :=
  match pyGet payload "error" with
  | .error e => .error e
  | .ok err =>
    if pyTruthy err then
      .error (.valueError "Kraken returned errors" [err])
    else
      match pyGet payload "result" with
      | .error e => .error e
      | .ok (.obj ((_, v) :: _)) =>
        match pyIndexStr v "c" with
        | .error e => .error e
        | .ok c =>
          match pyIndexNat c 0 with
          | .error e => .error e
          | .ok x => pyFloat x
      | .ok _ => .error (.valueError "Kraken payload missing result" [])

/-- Model of `parse_cryptocompare`: `float(payload["USD"])`. -/
def parse_cryptocompare (payload : Json) : Except PyErr ℚ :=
  match pyIndexStr payload "USD" with
  | .error e => .error e
  | .ok v => pyFloat v

/-! ### Sorting (Python `sorted`) -/

/-- Code-point lexicographic comparison of character lists, as Python
compares strings. -/
def charListLe : List Char → List Char → Bool
  | [], _ => true
  | _ :: _, [] => false
  | a :: as, b :: bs =>
    if a.toNat < b.toNat then true
    else if b.toNat < a.toNat then false
    else charListLe as bs

/-- Python string comparison `a <= b`. -/
def strLe (a b : String) : Bool := charListLe a.toList b.toList

/-- Python `sorted` on a list of strings. -/
def sortStrings (l : List String) : List String :=
  List.insertionSort (fun a b => strLe a b) l

/-- Python `sorted` on a list of prices. -/
def sortRats (l : List ℚ) : List ℚ :=
  List.insertionSort (fun a b => a ≤ b) l

/-! ### Rounding (Python `round(x, 6)`) -/

/-- Round to the nearest integer, ties to the even integer — the rounding
Python `round` uses. -/
def roundHalfEven (x : ℚ) : ℤ :=
  let f := x.floor
  let frac := x - (f : ℚ)
  if frac < 1 / 2 then f
  else if 1 / 2 < frac then f + 1
  else if f % 2 = 0 then f else f + 1

/-- Python `round(x, 6)` on the exact rational model of a float. -/
def round6 (x : ℚ) : ℚ := (roundHalfEven (x * 1000000) : ℚ) / 1000000

/-! ### `statistics.median` -/

/-- Model of `statistics.median`: sort the data, return the middle element for an
odd count and the mean of the two middle elements for an even count;
`StatisticsError` on empty input. -/
def median (data : List ℚ) : Except PyErr ℚ :=
  let s := sortRats data
  if s.length = 0 then .error (.statisticsError "no median for empty data")
  else if s.length % 2 = 1 then .ok (s.getD (s.length / 2) 0)
  else .ok ((s.getD (s.length / 2 - 1) 0 + s.getD (s.length / 2) 0) / 2)

/-- Modelled from the spec wording, for comparison with the code's
`median`: the standard statistical median — the middle value of the sorted
sequence for odd counts, the average of the two middle values for even
counts. -/
def medianSpec (data : List ℚ) : ℚ :=
  let s := sortRats data
  if s.length % 2 = 1 then s.getD (s.length / 2) 0
  else (s.getD (s.length / 2 - 1) 0 + s.getD (s.length / 2) 0) / 2

/-! ### Source registry (`SOURCES`, lines 57–83) -/

/-- A data source: name, endpoint, response parser. -/
structure Source where
  name : String
  url : String
  parser : Json → Except PyErr ℚ

/-- Registry entry for coingecko. -/
def coingeckoSource : Source :=
  ⟨"coingecko", "https://api.coingecko.com/api/v3/simple/price?ids=near&vs_currencies=usd",
    parse_coingecko⟩

/-- Registry entry for coinbase. -/
def coinbaseSource : Source :=
  ⟨"coinbase", "https://api.coinbase.com/v2/prices/NEAR-USD/spot", parse_coinbase⟩

/-- Registry entry for kraken. -/
def krakenSource : Source :=
  ⟨"kraken", "https://api.kraken.com/0/public/Ticker?pair=NEARUSD", parse_kraken⟩

/-- Registry entry for cryptocompare. -/
def cryptocompareSource : Source :=
  ⟨"cryptocompare", "https://min-api.cryptocompare.com/data/price?fsym=NEAR&tsyms=USD",
    parse_cryptocompare⟩

/-- Registry entry for binance. -/
def binanceSource : Source :=
  ⟨"binance", "https://api.binance.com/api/v3/ticker/price?symbol=NEARUSDT", parse_binance⟩

/-- The five-entry source registry. -/
def SOURCES : List Source :=
  [coingeckoSource, coinbaseSource, krakenSource, cryptocompareSource, binanceSource]

/-! ### Collection orchestration (`collect_prices`, lines 101–145) -/

/-- The exception classes named in the `except` clause of `collect_prices`
(line 134): `HTTPError, URLError, TimeoutError, ValueError, KeyError,
TypeError, json.JSONDecodeError`.  `statistics.StatisticsError` subclasses
`ValueError` and so is caught; `IndexError` and `AttributeError` are not in
the tuple and escape. -/
def caught : PyErr → Bool
  | .httpError _ => true
  | .urlError _ => true
  | .timeoutError _ => true
  | .valueError _ _ => true
  | .statisticsError _ => true
  | .keyError _ => true
  | .typeError _ => true
  | .jsonDecodeError _ => true
  | .indexError _ => false
  | .attributeError _ => false
  | .runtimeError _ => false

/-- Rendering `str(exc)` for the failure records; the exact rendering of the message
is not load-bearing for any claim. -/
def errStr : PyErr → String
  | .keyError k => k
  | .typeError m => m
  | .indexError m => m
  | .attributeError m => m
  | .valueError m _ => m
  | .runtimeError m => m
  | .statisticsError m => m
  | .httpError m => m
  | .urlError m => m
  | .timeoutError m => m
  | .jsonDecodeError m => m

/-- The body of the `try` block of `collect_prices` for one source: fetch
(injected), parse, reject a non-positive price, and build the success
entry `{"api": ..., "price": round(float(price), 6), "timestamp": ...}`.
The wall-clock reading `utc_now_iso()` is injected as `now`. -/
def attempt_source (fetch : Source → Except PyErr Json) (now : String)
    (s : Source) : Except PyErr Json :=
  match fetch s with
  | .error e => .error e
  | .ok payload =>
    match s.parser payload with
    | .error e => .error e
    | .ok price =>
      if price ≤ 0 then
        .error (.valueError "Non-positive price" [.num price])
      else
        .ok (.obj [("api", .str s.name), ("price", .num (round6 price)),
                   ("timestamp", .str now)])

/-- Model of `collect_prices`: one attempt per source in registry order; an
exception of a class named in the `except` tuple becomes a failure entry
`{"api": ..., "error": str(exc)}`, while any other exception propagates
and aborts the remaining sources.  Returns `(successes, failures)`. -/
def collect_prices (fetch : Source → Except PyErr Json) (now : String) :
    List Source → Except PyErr (List Json × List Json)
  | [] => .ok ([], [])
  | s :: rest =>
    match attempt_source fetch now s with
    | .ok entry =>
      match collect_prices fetch now rest with
      | .ok (succ, fail) => .ok (entry :: succ, fail)
      | .error e => .error e
    | .error e =>
      if caught e then
        match collect_prices fetch now rest with
        | .ok (succ, fail) =>
          .ok (succ, .obj [("api", .str s.name), ("error", .str (errStr e))] :: fail)
        | .error e2 => .error e2
      else .error e

/-! ### Aggregator (`build_submission`, lines 148–165) -/

/-- One step of the comprehension on line 158: `float(item["price"])`. -/
def getPrice (item : Json) : Except PyErr ℚ :=
  match pyIndexStr item "price" with
  | .error e => .error e
  | .ok v => pyFloat v

/-- The comprehension `[float(item["price"]) for item in source_points]`:
left to right, the first exception propagates. -/
def extractPrices : List Json → Except PyErr (List ℚ)
  | [] => .ok []
  | item :: rest =>
    match getPrice item with
    | .error e => .error e
    | .ok q =>
      match extractPrices rest with
      | .error e => .error e
      | .ok qs => .ok (q :: qs)

/-- The quorum failure message of line 154. -/
def quorumMsg (got : Nat) (need : Int) : String :=
  "Only " ++ toString got ++ " source(s) succeeded. Minimum required: " ++
    toString need ++ "."

/-- Model of `build_submission`: raise `RuntimeError` when fewer source points than
`min_sources`, otherwise take the median of the prices, round it to 6
decimal places and assemble the submission record.  The creation timestamp
`utc_now_iso()` is injected as `now`. -/
def build_submission (now : String) (source_points : List Json)
    (code_or_logs : String) (min_sources : Int) : Except PyErr Json :=
  if (source_points.length : Int) < min_sources then
    .error (.runtimeError (quorumMsg source_points.length min_sources))
  else
    match extractPrices source_points with
    | .error e => .error e
    | .ok prices =>
      match median prices with
      | .error e => .error e
      | .ok m =>
        .ok (.obj [
          ("median_price_usd", .num (round6 m)),
          ("sources", .arr source_points),
          ("calculation_method", .str "median"),
          ("calculated_at", .str now),
          ("code_or_logs", .str code_or_logs)])

/-! ### Submission validator (`validate_submission_payload`, lines 168–202) -/

/-- The five required top-level fields of a submission record. -/
def required_top_level : List String :=
  ["median_price_usd", "sources", "calculation_method", "calculated_at", "code_or_logs"]

/-- The set difference `required_top_level - set(payload)`: the required fields the candidate
payload lacks. -/
def missingFields (payload : List (String × Json)) : List String :=
  required_top_level.filter (fun k => (dlookup payload k).isNone)

/-- Python `payload[key]` on the candidate dict. -/
def dictIndex (kvs : List (String × Json)) (k : String) : Except PyErr Json :=
  match dlookup kvs k with
  | some v => .ok v
  | none => .error (.keyError k)

/-- The comparison `value == "median"`: a Python value equals a string
literal only when it is that string. -/
def isStrEq (v : Json) (s : String) : Bool :=
  match v with
  | .str t => t == s
  | _ => false

/-- The api name the validator records: `str(item["api"])`. -/
def entryApi (item : Json) : String :=
  match item with
  | .obj kvs => pyStr ((dlookup kvs "api").getD .null)
  | _ => pyStr .null

/-- The per-entry loop of `validate_submission_payload` (lines 188–202):
each entry must be a dict with `api`/`price`/`timestamp` keys, an api name
not seen before, a positive price and a timestamp ending in `"Z"`.
`seen` accumulates the api names already checked. -/
def check_source_entries : List Json → List String → Except PyErr Unit
  | [], _ => .ok ()
  | item :: rest, seen =>
    match item with
    | .obj kvs =>
      if (dlookup kvs "api").isNone then
        .error (.valueError "Source entry missing key" [.str "api"])
      else if (dlookup kvs "price").isNone then
        .error (.valueError "Source entry missing key" [.str "price"])
      else if (dlookup kvs "timestamp").isNone then
        .error (.valueError "Source entry missing key" [.str "timestamp"])
      else
        let api_name := pyStr ((dlookup kvs "api").getD .null)
        if seen.contains api_name then
          .error (.valueError "Duplicate API source found" [.str api_name])
        else
          match pyFloat ((dlookup kvs "price").getD .null) with
          | .error e => .error e
          | .ok q =>
            if q ≤ 0 then
              .error (.valueError "Invalid non-positive price for source" [.str api_name])
            else if !((pyStr ((dlookup kvs "timestamp").getD .null)).endsWith "Z") then
              .error (.valueError "Timestamp must be UTC ISO string ending with Z"
                [.str api_name])
            else check_source_entries rest (api_name :: seen)
    | _ => .error (.valueError "Each source entry must be an object" [])

/-- Model of `validate_submission_payload`: require the five top-level fields
(reporting the sorted list of all missing ones), the literal `"median"`
calculation method, a sources list of at least `min_sources` entries, and
per-entry well-formedness as in `check_source_entries`. -/
def validate_submission_payload (payload : List (String × Json)) (min_sources : Int) :
    Except PyErr Unit :=
  let missing := sortStrings (missingFields payload)
  if !missing.isEmpty then
    .error (.valueError "Submission missing required top-level fields"
      [.arr (missing.map .str)])
  else
    match dictIndex payload "calculation_method" with
    | .error e => .error e
    | .ok method =>
      if !(isStrEq method "median") then
        .error (.valueError "calculation_method must be median" [])
      else
        match dictIndex payload "sources" with
        | .error e => .error e
        | .ok (.arr items) =>
          if (items.length : Int) < min_sources then
            .error (.valueError "sources must contain at least min_sources entries"
              [.num min_sources])
          else check_source_entries items []
        | .ok _ =>
          .error (.valueError "sources must contain at least min_sources entries"
            [.num min_sources])

/-! ### Well-formedness of a price point, as the claims use it -/

/-- A well-formed price point: a dict whose `api` is a string, whose
`price` is a positive number and whose `timestamp` is a string ending in
`"Z"`. -/
def isGoodPoint : Json → Bool
  | .obj kvs =>
    (match dlookup kvs "api" with
     | some (.str _) => true
     | _ => false) &&
    (match dlookup kvs "price" with
     | some (.num q) => decide (0 < q)
     | _ => false) &&
    (match dlookup kvs "timestamp" with
     | some (.str t) => t.endsWith "Z"
     | _ => false)
  | _ => false

/-! ### Concrete payloads and price points used by witnesses and
counterexamples -/

/-- Price point a = 1.0 (the even-count median scenario of the tests). -/
def ptA : Json :=
  .obj [("api", .str "a"), ("price", .num 1), ("timestamp", .str "2026-02-22T00:00:00Z")]

/-- Price point b = 3.0. -/
def ptB : Json :=
  .obj [("api", .str "b"), ("price", .num 3), ("timestamp", .str "2026-02-22T00:00:01Z")]

/-- Price point c = 2.0. -/
def ptC : Json :=
  .obj [("api", .str "c"), ("price", .num 2), ("timestamp", .str "2026-02-22T00:00:02Z")]

/-- Price point d = 100.0. -/
def ptD : Json :=
  .obj [("api", .str "d"), ("price", .num 100), ("timestamp", .str "2026-02-22T00:00:03Z")]

/-- A Kraken payload whose `result` holds two well-shaped entries. -/
def krakenTwoEntries : Json :=
  .obj [("error", .arr []),
        ("result", .obj [
          ("NEARUSD", .obj [("c", .arr [.num 2, .num 3])]),
          ("NEARUSDT", .obj [("c", .arr [.num 5, .num 7])])])]

/-- A Kraken payload whose last-close field `c` is an empty array: its
`["c"][0]` raises `IndexError`. -/
def krakenEmptyC : Json :=
  .obj [("error", .arr []), ("result", .obj [("NEARUSD", .obj [("c", .arr [])])])]

/-- The three source entries of the duplicate-api scenario: two entries
named coingecko. -/
def dupSources : List Json :=
  [.obj [("api", .str "coingecko"), ("price", .num 1),
         ("timestamp", .str "2026-02-22T00:00:00Z")],
   .obj [("api", .str "coingecko"), ("price", .num (11 / 10)),
         ("timestamp", .str "2026-02-22T00:00:01Z")],
   .obj [("api", .str "binance"), ("price", .num (12 / 10)),
         ("timestamp", .str "2026-02-22T00:00:02Z")]]

/-- A candidate record that is valid in every respect except the
duplicated api name in its sources. -/
def dupPayload : List (String × Json) :=
  [("median_price_usd", .num 1),
   ("sources", .arr dupSources),
   ("calculation_method", .str "median"),
   ("calculated_at", .str "2026-02-22T00:00:05Z"),
   ("code_or_logs", .str "logs")]

/-! ### Helper lemmas -/

lemma length_sortRats (l : List ℚ) : (sortRats l).length = l.length :=
  List.length_insertionSort _ l

lemma sortStrings_perm (l : List String) : (sortStrings l).Perm l :=
  List.perm_insertionSort _ l

lemma median_ok (data : List ℚ) (h : data ≠ []) : median data = .ok (medianSpec data) := by
  have hlen : (sortRats data).length ≠ 0 := by
    rw [length_sortRats]
    exact fun hc => h (List.length_eq_zero.mp hc)
  unfold median medianSpec
  simp only [if_neg hlen]
  split <;> rfl

lemma extractPrices_ok_length : ∀ {pts : List Json} {qs : List ℚ},
    extractPrices pts = .ok qs → qs.length = pts.length := by
  intro pts
  induction pts with
  | nil =>
    intro qs h
    simp only [extractPrices] at h
    cases h
    rfl
  | cons item rest ih =>
    intro qs h
    simp only [extractPrices] at h
    cases hq : getPrice item with
    | error e => rw [hq] at h; cases h
    | ok q =>
      rw [hq] at h
      cases hr : extractPrices rest with
      | error e => rw [hr] at h; cases h
      | ok qs2 =>
        rw [hr] at h
        cases h
        simp [ih hr]

lemma build_submission_ok (now : String) (pts : List Json) (code : String)
    (ms : Int) (qs : List ℚ)
    (hex : extractPrices pts = .ok qs)
    (hne : pts ≠ [])
    (hq : ms ≤ (pts.length : Int)) :
    build_submission now pts code ms = .ok (.obj [
      ("median_price_usd", .num (round6 (medianSpec qs))),
      ("sources", .arr pts),
      ("calculation_method", .str "median"),
      ("calculated_at", .str now),
      ("code_or_logs", .str code)]) := by
  have hqs : qs ≠ [] := by
    intro hc
    apply hne
    have hl := extractPrices_ok_length hex
    rw [hc] at hl
    exact List.length_eq_zero.mp hl.symm
  unfold build_submission
  rw [if_neg (not_lt.mpr hq), hex]
  dsimp only
  rw [median_ok qs hqs]

/-! ### C1 -/

/-- C1: with at least `min_sources` source points whose prices extract to
`qs`, `build_submission` returns a record whose `median_price_usd` is the
standard statistical median of `qs` (middle value for odd counts, mean of
the two middle values for even counts) rounded to 6 decimal places, and
whose `calculation_method` is `"median"`. -/
theorem build_submission_median_correct (now : String) (pts : List Json) (code : String)
    (ms : Int) (qs : List ℚ)
    (hex : extractPrices pts = .ok qs)
    (hne : pts ≠ [])
    (hq : ms ≤ (pts.length : Int)) :
    ∃ rec, build_submission now pts code ms = .ok (.obj rec) ∧
      dlookup rec "median_price_usd" = some (.num (round6 (medianSpec qs))) ∧
      dlookup rec "calculation_method" = some (.str "median") :=
  ⟨_, build_submission_ok now pts code ms qs hex hne hq, rfl, rfl⟩

/-- C1 witness: the four sources a=1.0, b=3.0, c=2.0, d=100.0 with
min_sources = 3 yield median_price_usd = 2.5 and calculation_method
"median". -/
theorem build_submission_median_correct_witness :
    ∃ rec, build_submission "2026-02-22T00:00:04Z" [ptA, ptB, ptC, ptD] "code+logs" 3 =
        .ok (.obj rec) ∧
      dlookup rec "median_price_usd" = some (.num (5 / 2)) ∧
      dlookup rec "calculation_method" = some (.str "median") := by
  have h := build_submission_median_correct "2026-02-22T00:00:04Z" [ptA, ptB, ptC, ptD]
    "code+logs" 3 [1, 3, 2, 100] rfl (List.cons_ne_nil _ _) (by decide)
  have hm : round6 (medianSpec [1, 3, 2, 100]) = 5 / 2 := by with_unfolding_all decide
  rwa [hm] at h

/-! ### C2 -/

/-- C2: with fewer successes than `min_sources ≥ 1`, `build_submission`
fails with the quorum `RuntimeError` and produces no record. -/
theorem build_submission_quorum_error (now : String) (pts : List Json) (code : String)
    (ms : Int) (hms : 1 ≤ ms) (h : (pts.length : Int) < ms) :
    build_submission now pts code ms = .error (.runtimeError (quorumMsg pts.length ms)) := by
  clear hms
  unfold build_submission
  rw [if_pos h]

/-- C2 witness: one success with min_sources = 3 fails with the quorum
error. -/
theorem build_submission_quorum_error_witness :
    build_submission "2026-02-22T00:00:04Z" [ptA] "x" 3 =
      .error (.runtimeError (quorumMsg 1 3)) :=
  build_submission_quorum_error "2026-02-22T00:00:04Z" [ptA] "x" 3 (by decide) (by decide)

/-! ### C10 -/

/-- C10 counterexample: with min_sources = 1 and a passing quorum check
(one source point), `build_submission` on a source point that lacks a
`price` key fails with `KeyError`, which is not the quorum
`RuntimeError` — so the claim that it can fail only with the quorum error
is false as stated. -/
theorem build_submission_keyerror_counterexample :
    build_submission "2026-02-22T00:00:04Z" [.obj []] "x" 1 = .error (.keyError "price") ∧
    ∀ msg, PyErr.keyError "price" ≠ .runtimeError msg :=
  ⟨rfl, fun _ h => PyErr.noConfusion h⟩

/-- C10 amended: when `min_sources ≥ 1` and every source point carries an
extractable price, a passing quorum check hands the median a non-empty
price list, `build_submission` succeeds, and the only possible failure is
the quorum `RuntimeError`. -/
theorem build_submission_only_quorum_failure (now : String) (pts : List Json)
    (code : String) (ms : Int) (qs : List ℚ)
    (hms : 1 ≤ ms) (hex : extractPrices pts = .ok qs) :
    (ms ≤ (pts.length : Int) → qs ≠ [] ∧ ∃ r, build_submission now pts code ms = .ok r) ∧
    (∀ e, build_submission now pts code ms = .error e →
      e = .runtimeError (quorumMsg pts.length ms)) := by
  have hlen := extractPrices_ok_length hex
  have hmain : ms ≤ (pts.length : Int) →
      qs ≠ [] ∧ ∃ r, build_submission now pts code ms = .ok r := by
    intro hq
    have hne : pts ≠ [] := by
      intro hc
      rw [hc] at hq
      simp only [List.length_nil, Nat.cast_zero] at hq
      omega
    refine ⟨?_, _, build_submission_ok now pts code ms qs hex hne hq⟩
    intro hc
    apply hne
    rw [hc] at hlen
    exact List.length_eq_zero.mp hlen.symm
  refine ⟨hmain, ?_⟩
  intro e he
  by_cases hlt : (pts.length : Int) < ms
  · unfold build_submission at he
    rw [if_pos hlt] at he
    cases he
    rfl
  · obtain ⟨-, r, hr⟩ := hmain (not_lt.mp hlt)
    rw [hr] at he
    cases he

/-- C10 witness: one well-formed source point with min_sources = 1 — the
price list is non-empty, the build succeeds, and any failure could only
have been the quorum error. -/
theorem build_submission_only_quorum_failure_witness :
    ((1 : Int) ≤ (([ptA] : List Json).length : Int) →
      ([1] : List ℚ) ≠ [] ∧ ∃ r, build_submission "2026-02-22T00:00:04Z" [ptA] "x" 1 = .ok r) ∧
    (∀ e, build_submission "2026-02-22T00:00:04Z" [ptA] "x" 1 = .error e →
      e = .runtimeError (quorumMsg 1 1)) :=
  build_submission_only_quorum_failure "2026-02-22T00:00:04Z" [ptA] "x" 1 [1]
    (by decide) rfl

/-! ### C4 -/

/-- C4: for each of the five parsers, a payload whose documented price
field holds a value that floats to some q ≤ 0 makes the per-source
collection step (parse, then the shared non-positive check of
`collect_prices` lines 113–115) reject with the `ValueError` carrying
the price, instead of yielding a success entry. -/
theorem parsers_reject_nonpositive_price :
    (∀ now p inner v q, pyIndexStr p "near" = .ok inner → pyIndexStr inner "usd" = .ok v →
      pyFloat v = .ok q → q ≤ 0 →
      attempt_source (fun _ => .ok p) now coingeckoSource =
        .error (.valueError "Non-positive price" [.num q])) ∧
    (∀ now p inner v q, pyIndexStr p "data" = .ok inner → pyIndexStr inner "amount" = .ok v →
      pyFloat v = .ok q → q ≤ 0 →
      attempt_source (fun _ => .ok p) now coinbaseSource =
        .error (.valueError "Non-positive price" [.num q])) ∧
    (∀ now p v q, pyIndexStr p "price" = .ok v →
      pyFloat v = .ok q → q ≤ 0 →
      attempt_source (fun _ => .ok p) now binanceSource =
        .error (.valueError "Non-positive price" [.num q])) ∧
    (∀ now p errv entry rest c x q,
      pyGet p "error" = .ok errv → pyTruthy errv = false →
      pyGet p "result" = .ok (.obj (entry :: rest)) →
      pyIndexStr entry.2 "c" = .ok c → pyIndexNat c 0 = .ok x →
      pyFloat x = .ok q → q ≤ 0 →
      attempt_source (fun _ => .ok p) now krakenSource =
        .error (.valueError "Non-positive price" [.num q])) ∧
    (∀ now p v q, pyIndexStr p "USD" = .ok v →
      pyFloat v = .ok q → q ≤ 0 →
      attempt_source (fun _ => .ok p) now cryptocompareSource =
        .error (.valueError "Non-positive price" [.num q])) := by
  refine ⟨?_, ?_, ?_, ?_, ?_⟩
  · intro now p inner v q h1 h2 h3 h4
    unfold attempt_source coingeckoSource parse_coingecko
    simp only [h1, h2, h3]
    rw [if_pos h4]
  · intro now p inner v q h1 h2 h3 h4
    unfold attempt_source coinbaseSource parse_coinbase
    simp only [h1, h2, h3]
    rw [if_pos h4]
  · intro now p v q h1 h2 h3
    unfold attempt_source binanceSource parse_binance
    simp only [h1, h2]
    rw [if_pos h3]
  · intro now p errv entry rest c x q h1 h2 h3 h4 h5 h6 h7
    obtain ⟨k, v⟩ := entry
    unfold attempt_source krakenSource parse_kraken
    simp only [h1, h2, h3, h4, h5, h6, Bool.false_eq_true, if_false]
    rw [if_pos h7]
  · intro now p v q h1 h2 h3
    unfold attempt_source cryptocompareSource parse_cryptocompare
    simp only [h1, h2]
    rw [if_pos h3]

/-- C4 witness: concrete zero-price payloads for all five sources are
rejected by the collection step. -/
theorem parsers_reject_nonpositive_price_witness :
    (attempt_source (fun _ => .ok (.obj [("near", .obj [("usd", .num 0)])])) "T"
        coingeckoSource = .error (.valueError "Non-positive price" [.num 0])) ∧
    (attempt_source (fun _ => .ok (.obj [("data", .obj [("amount", .num 0)])])) "T"
        coinbaseSource = .error (.valueError "Non-positive price" [.num 0])) ∧
    (attempt_source (fun _ => .ok (.obj [("price", .num 0)])) "T"
        binanceSource = .error (.valueError "Non-positive price" [.num 0])) ∧
    (attempt_source (fun _ => .ok (.obj [("error", .arr []),
        ("result", .obj [("NEARUSD", .obj [("c", .arr [.num 0, .num 3])])])])) "T"
        krakenSource = .error (.valueError "Non-positive price" [.num 0])) ∧
    (attempt_source (fun _ => .ok (.obj [("USD", .num 0)])) "T"
        cryptocompareSource = .error (.valueError "Non-positive price" [.num 0])) :=
  ⟨parsers_reject_nonpositive_price.1 "T" _ _ _ 0 rfl rfl rfl (le_refl 0),
   parsers_reject_nonpositive_price.2.1 "T" _ _ _ 0 rfl rfl rfl (le_refl 0),
   parsers_reject_nonpositive_price.2.2.1 "T" _ _ 0 rfl rfl (le_refl 0),
   parsers_reject_nonpositive_price.2.2.2.1 "T" _ (.arr [])
     ("NEARUSD", .obj [("c", .arr [.num 0, .num 3])]) [] (.arr [.num 0, .num 3]) (.num 0) 0
     rfl rfl rfl rfl rfl rfl (le_refl 0),
   parsers_reject_nonpositive_price.2.2.2.2 "T" _ _ 0 rfl rfl (le_refl 0)⟩

/-! ### C6 -/

/-- C6 counterexample: a payload whose `result` object holds two
well-shaped entries does not fail with a `DataError` — `parse_kraken`
returns the first entry's last-close price. -/
theorem parse_kraken_two_entries_counterexample :
    parse_kraken krakenTwoEntries = .ok 2 := rfl

/-- C6 amended: `parse_kraken` fails immediately with the error content
when the payload carries a non-empty top-level error list; otherwise it
requires `result` to be an object with at least one entry and extracts
element 0 of the array held by the `"c"` field of the first entry;
payloads whose `result` is missing, not an object, or empty fail with the
missing-result `DataError`. -/
theorem parse_kraken_spec (p : Json) :
    (∀ l, pyGet p "error" = .ok (.arr l) → l ≠ [] →
      parse_kraken p = .error (.valueError "Kraken returned errors" [.arr l])) ∧
    (∀ errv k v rest c x q, pyGet p "error" = .ok errv → pyTruthy errv = false →
      pyGet p "result" = .ok (.obj ((k, v) :: rest)) →
      pyIndexStr v "c" = .ok c → pyIndexNat c 0 = .ok x → pyFloat x = .ok q →
      parse_kraken p = .ok q) ∧
    (∀ errv r, pyGet p "error" = .ok errv → pyTruthy errv = false →
      pyGet p "result" = .ok r → (∀ k v rest, r ≠ .obj ((k, v) :: rest)) →
      parse_kraken p = .error (.valueError "Kraken payload missing result" [])) := by
  refine ⟨?_, ?_, ?_⟩
  · intro l h1 h2
    have ht : pyTruthy (.arr l) = true := by
      simp [pyTruthy, List.isEmpty_eq_true, h2]
    unfold parse_kraken
    simp only [h1, ht, if_true]
  · intro errv k v rest c x q h1 h2 h3 h4 h5 h6
    unfold parse_kraken
    simp only [h1, h2, h3, h4, h5, h6, Bool.false_eq_true, if_false]
  · intro errv r h1 h2 h3 hshape
    unfold parse_kraken
    rcases r with - | b | q2 | s | xs | (- | ⟨⟨k, v⟩, rest⟩)
    case obj.cons.mk => exact absurd rfl (hshape k v rest)
    all_goals simp only [h1, h2, h3, Bool.false_eq_true, if_false]

/-- C6 witness: a non-empty error list fails with its content; a
well-shaped single-entry result yields element 0 of `"c"`; an empty
result object fails with the missing-result error. -/
theorem parse_kraken_spec_witness :
    (parse_kraken (.obj [("error", .arr [.str "EQuery:Unknown asset pair"])]) =
      .error (.valueError "Kraken returned errors" [.arr [.str "EQuery:Unknown asset pair"]])) ∧
    (parse_kraken (.obj [("error", .arr []),
        ("result", .obj [("NEARUSD", .obj [("c", .arr [.num 2, .num 10])])])]) = .ok 2) ∧
    (parse_kraken (.obj [("error", .arr []), ("result", .obj [])]) =
      .error (.valueError "Kraken payload missing result" [])) :=
  ⟨(parse_kraken_spec _).1 [.str "EQuery:Unknown asset pair"] rfl (by simp),
   (parse_kraken_spec _).2.1 (.arr []) "NEARUSD" (.obj [("c", .arr [.num 2, .num 10])]) []
     (.arr [.num 2, .num 10]) (.num 2) 2 rfl rfl rfl rfl rfl rfl,
   (parse_kraken_spec _).2.2 (.arr []) (.obj []) rfl rfl rfl
     (by intro k v rest h; simp at h)⟩

/-! ### C5 -/

/-- C5 failing run: a Kraken payload with an empty `"c"` array makes
`parse_kraken` raise `IndexError`, an exception class absent from the
`except` tuple of `collect_prices`, so the run aborts instead of
recording one outcome per source — refuting the claim that no
single-source failure escapes the collection boundary. -/
theorem collect_prices_kraken_uncaught_indexerror :
    parse_kraken krakenEmptyC = .error (.indexError "list index out of range") ∧
    caught (.indexError "list index out of range") = false ∧
    collect_prices (fun _ => .ok krakenEmptyC) "2026-02-22T00:00:04Z" SOURCES =
      .error (.indexError "list index out of range") :=
  ⟨rfl, rfl, rfl⟩

lemma isGoodPoint_elim : ∀ {item : Json}, isGoodPoint item = true →
    ∃ kvs name q t, item = .obj kvs ∧ dlookup kvs "api" = some (.str name) ∧
      dlookup kvs "price" = some (.num q) ∧ 0 < q ∧
      dlookup kvs "timestamp" = some (.str t) ∧ t.endsWith "Z" = true := by
  intro item h
  unfold isGoodPoint at h
  split at h
  · rename_i kvs
    simp only [Bool.and_eq_true] at h
    obtain ⟨⟨h1, h2⟩, h3⟩ := h
    split at h1
    · rename_i name ha
      split at h2
      · rename_i q hp
        split at h3
        · rename_i t ht
          exact ⟨kvs, name, q, t, rfl, ha, hp, of_decide_eq_true h2, ht, h3⟩
        · cases h3
      · cases h2
    · cases h1
  · cases h

lemma entryApi_eq {kvs : List (String × Json)} {name : String}
    (ha : dlookup kvs "api" = some (.str name)) : entryApi (.obj kvs) = name := by
  simp [entryApi, ha, pyStr]

lemma check_cons_good (kvs : List (String × Json)) (rest : List Json) (seen : List String)
    (name : String) (q : ℚ) (t : String)
    (ha : dlookup kvs "api" = some (.str name))
    (hp : dlookup kvs "price" = some (.num q)) (hq : 0 < q)
    (ht : dlookup kvs "timestamp" = some (.str t)) (hz : t.endsWith "Z" = true) :
    check_source_entries (.obj kvs :: rest) seen =
      if seen.contains name then
        .error (.valueError "Duplicate API source found" [.str name])
      else check_source_entries rest (name :: seen) := by
  unfold check_source_entries
  simp only [ha, hp, ht, Option.isNone_some, Bool.false_eq_true, if_false, Option.getD_some,
    pyStr, pyFloat, hz, Bool.not_true]
  rw [if_neg (not_le.mpr hq)]
  split
  · rfl
  · exact check_source_entries.eq_def rest (name :: seen)

lemma check_ok_of_good : ∀ (items : List Json) (seen : List String),
    (∀ i ∈ items, isGoodPoint i = true) →
    (items.map entryApi).Nodup →
    (∀ a ∈ items.map entryApi, a ∉ seen) →
    check_source_entries items seen = .ok () := by
  intro items
  induction items with
  | nil => intro seen _ _ _; rfl
  | cons item rest ih =>
    intro seen hgood hnodup hdisj
    obtain ⟨kvs, name, q, t, hitem, ha, hp, hq, ht, hz⟩ :=
      isGoodPoint_elim (hgood item (List.mem_cons_self item rest))
    subst hitem
    rw [check_cons_good kvs rest seen name q t ha hp hq ht hz]
    have hname : entryApi (.obj kvs) = name := entryApi_eq ha
    have hns : name ∉ seen := by
      have := hdisj (entryApi (.obj kvs)) (by simp)
      rwa [hname] at this
    rw [if_neg (by simpa using hns)]
    apply ih
    · intro i hi; exact hgood i (List.mem_cons_of_mem _ hi)
    · simpa using hnodup.of_cons
    · intro a hamem
      simp only [List.mem_cons, not_or]
      constructor
      · intro hae
        subst hae
        have : entryApi (.obj kvs) ∉ (rest.map entryApi) := by
          have h2 := hnodup
          simp only [List.map_cons, List.nodup_cons] at h2
          exact h2.1
        rw [hname] at this
        exact this hamem
      · exact hdisj a (by simp [hamem])

lemma check_cons_obj (kvs : List (String × Json)) (rest : List Json) (seen : List String) :
    check_source_entries (.obj kvs :: rest) seen =
      (if (dlookup kvs "api").isNone then
        .error (.valueError "Source entry missing key" [.str "api"])
      else if (dlookup kvs "price").isNone then
        .error (.valueError "Source entry missing key" [.str "price"])
      else if (dlookup kvs "timestamp").isNone then
        .error (.valueError "Source entry missing key" [.str "timestamp"])
      else if seen.contains (pyStr ((dlookup kvs "api").getD .null)) then
        .error (.valueError "Duplicate API source found"
          [.str (pyStr ((dlookup kvs "api").getD .null))])
      else
        match pyFloat ((dlookup kvs "price").getD .null) with
        | .error e => .error e
        | .ok q =>
          if q ≤ 0 then
            .error (.valueError "Invalid non-positive price for source"
              [.str (pyStr ((dlookup kvs "api").getD .null))])
          else if !((pyStr ((dlookup kvs "timestamp").getD .null)).endsWith "Z") then
            .error (.valueError "Timestamp must be UTC ISO string ending with Z"
              [.str (pyStr ((dlookup kvs "api").getD .null))])
          else check_source_entries rest
            (pyStr ((dlookup kvs "api").getD .null) :: seen)) := by
  rw [check_source_entries.eq_def]

lemma check_ok_nodup : ∀ (items : List Json) (seen : List String),
    check_source_entries items seen = .ok () →
    (items.map entryApi).Nodup ∧ ∀ a ∈ items.map entryApi, a ∉ seen := by
  intro items
  induction items with
  | nil => intro seen _; simp
  | cons item rest ih =>
    intro seen h
    cases item with
    | null => cases h
    | bool b => cases h
    | num q => cases h
    | str s => cases h
    | arr xs => cases h
    | obj kvs =>
      rw [check_cons_obj] at h
      split at h
      case isTrue => cases h
      split at h
      case isTrue => cases h
      split at h
      case isTrue => cases h
      split at h
      case isTrue => cases h
      rename_i hcontains
      split at h
      case h_1 => cases h
      split at h
      case isTrue => cases h
      split at h
      case isTrue => cases h
      obtain ⟨ihn, ihd⟩ := ih _ h
      have hname : entryApi (.obj kvs) = pyStr ((dlookup kvs "api").getD .null) := rfl
      constructor
      · simp only [List.map_cons, List.nodup_cons]
        refine ⟨?_, ihn⟩
        intro hmem
        have hx := ihd _ hmem
        rw [hname] at hx
        exact hx (List.mem_cons_self _ _)
      · intro a hamem
        simp only [List.map_cons, List.mem_cons] at hamem
        cases hamem with
        | inl hae =>
          subst hae
          rw [hname]
          have hnotmem : pyStr ((dlookup kvs "api").getD .null) ∉ seen := by
            simpa using hcontains
          exact hnotmem
        | inr hmem =>
          have hx := ihd a hmem
          simp only [List.mem_cons, not_or] at hx
          exact hx.2

lemma check_dup_error : ∀ (items : List Json) (seen : List String),
    (∀ i ∈ items, isGoodPoint i = true) →
    (¬ (items.map entryApi).Nodup ∨ ∃ a ∈ items.map entryApi, a ∈ seen) →
    ∃ a, check_source_entries items seen =
        .error (.valueError "Duplicate API source found" [.str a]) ∧
      a ∈ items.map entryApi ∧ (a ∈ seen ∨ 2 ≤ (items.map entryApi).count a) := by
  intro items
  induction items with
  | nil =>
    intro seen _ hpre
    rcases hpre with hnd | ⟨a, hmem, -⟩
    · exact absurd List.nodup_nil hnd
    · cases hmem
  | cons item rest ih =>
    intro seen hgood hpre
    obtain ⟨kvs, name, q, t, hitem, ha, hp, hq, ht, hz⟩ :=
      isGoodPoint_elim (hgood item (List.mem_cons_self item rest))
    subst hitem
    have hname : entryApi (.obj kvs) = name := entryApi_eq ha
    rw [check_cons_good kvs rest seen name q t ha hp hq ht hz]
    by_cases hc : seen.contains name = true
    · refine ⟨name, by rw [if_pos hc], ?_, Or.inl (by simpa using hc)⟩
      simp [hname]
    · rw [if_neg hc]
      have hnameseen : name ∉ seen := by simpa using hc
      have ihpre : ¬ (rest.map entryApi).Nodup ∨
          ∃ a ∈ rest.map entryApi, a ∈ (name :: seen) := by
        rcases hpre with hnd | ⟨a, hmem, hseen⟩
        · simp only [List.map_cons, hname, List.nodup_cons, not_and] at hnd
          by_cases hmem : name ∈ rest.map entryApi
          · exact Or.inr ⟨name, hmem, List.mem_cons_self _ _⟩
          · exact Or.inl (hnd hmem)
        · simp only [List.map_cons, hname, List.mem_cons] at hmem
          cases hmem with
          | inl hae => exact absurd (hae ▸ hseen) hnameseen
          | inr hmem2 => exact Or.inr ⟨a, hmem2, List.mem_cons_of_mem _ hseen⟩
      obtain ⟨a, herr, hmem, hrest⟩ := ih (name :: seen)
        (fun i hi => hgood i (List.mem_cons_of_mem _ hi)) ihpre
      refine ⟨a, herr, ?_, ?_⟩
      · simp only [List.map_cons, hname, List.mem_cons]
        exact Or.inr hmem
      rcases hrest with hin | hcount
      · rcases List.mem_cons.mp hin with hae | hseen2
        · subst hae
          right
          have h1 : 1 ≤ (rest.map entryApi).count a := List.count_pos_iff.mpr hmem
          have h2 : ((.obj kvs :: rest).map entryApi).count a =
              (rest.map entryApi).count a + 1 := by
            simp [hname, List.count_cons]
          omega
        · exact Or.inl hseen2
      · right
        have h2 : (rest.map entryApi).count a ≤ ((.obj kvs :: rest).map entryApi).count a := by
          simp only [List.map_cons, List.count_cons]
          omega
        omega

lemma validate_eq_check (payload : List (String × Json)) (ms : Int) (items : List Json)
    (hm : missingFields payload = [])
    (hmethod : dlookup payload "calculation_method" = some (.str "median"))
    (hsources : dlookup payload "sources" = some (.arr items))
    (hlen : ¬ (items.length : Int) < ms) :
    validate_submission_payload payload ms = check_source_entries items [] := by
  unfold validate_submission_payload
  rw [hm]
  simp only [sortStrings, List.insertionSort, List.isEmpty_nil, Bool.not_true,
    Bool.false_eq_true, if_false, dictIndex, hmethod, hsources, isStrEq]
  rw [if_neg hlen]
  simp

lemma validate_ok_of_wellformed (payload : List (String × Json)) (ms : Int)
    (items : List Json)
    (hm : missingFields payload = [])
    (hmethod : dlookup payload "calculation_method" = some (.str "median"))
    (hsources : dlookup payload "sources" = some (.arr items))
    (hlen : ¬ (items.length : Int) < ms)
    (hgood : ∀ i ∈ items, isGoodPoint i = true)
    (hnodup : (items.map entryApi).Nodup) :
    validate_submission_payload payload ms = .ok () := by
  rw [validate_eq_check payload ms items hm hmethod hsources hlen]
  exact check_ok_of_good items [] hgood hnodup (fun a _ => List.not_mem_nil a)

lemma validate_missing_error (payload : List (String × Json)) (ms : Int)
    (h : missingFields payload ≠ []) :
    validate_submission_payload payload ms =
      .error (.valueError "Submission missing required top-level fields"
        [.arr ((sortStrings (missingFields payload)).map .str)]) := by
  have hlen : (sortStrings (missingFields payload)).length =
      (missingFields payload).length := (sortStrings_perm _).length_eq
  have hne : sortStrings (missingFields payload) ≠ [] := by
    intro hc
    apply h
    rw [hc] at hlen
    exact List.length_eq_zero.mp hlen.symm
  have hemp : (sortStrings (missingFields payload)).isEmpty = false := by
    cases hs : sortStrings (missingFields payload) with
    | nil => exact absurd hs hne
    | cons x xs => rfl
  unfold validate_submission_payload
  simp only [hemp, Bool.not_false, if_true]

theorem validate_reports_every_missing_field (payload : List (String × Json)) (ms : Int)
    (h : missingFields payload ≠ []) :
    validate_submission_payload payload ms =
      .error (.valueError "Submission missing required top-level fields"
        [.arr ((sortStrings (missingFields payload)).map .str)]) ∧
    ∀ k, k ∈ required_top_level → dlookup payload k = none →
      k ∈ sortStrings (missingFields payload) := by
  refine ⟨validate_missing_error payload ms h, ?_⟩
  intro k hk hnone
  have hmem : k ∈ missingFields payload :=
    List.mem_filter.mpr ⟨hk, by simp [hnone]⟩
  exact ((sortStrings_perm _).mem_iff).mpr hmem

theorem validate_reports_every_missing_field_witness :
    validate_submission_payload [("sources", .arr [])] 0 =
      .error (.valueError "Submission missing required top-level fields"
        [.arr [.str "calculated_at", .str "calculation_method", .str "code_or_logs",
               .str "median_price_usd"]]) :=
  (validate_reports_every_missing_field [("sources", .arr [])] 0 (by decide)).1

theorem validate_ignores_median_value (payload : List (String × Json)) (ms : Int)
    (v : Json) (items : List Json)
    (hmed : dlookup payload "median_price_usd" = some v)
    (hca : (dlookup payload "calculated_at").isSome = true)
    (hcl : (dlookup payload "code_or_logs").isSome = true)
    (hmethod : dlookup payload "calculation_method" = some (.str "median"))
    (hsources : dlookup payload "sources" = some (.arr items))
    (hlen : ms ≤ (items.length : Int))
    (hgood : ∀ i ∈ items, isGoodPoint i = true)
    (hnodup : (items.map entryApi).Nodup) :
    validate_submission_payload payload ms = .ok () := by
  have hm : missingFields payload = [] := by
    unfold missingFields required_top_level
    simp [hmed, hmethod, hsources]
    exact ⟨Option.isSome_iff_ne_none.mp hca, Option.isSome_iff_ne_none.mp hcl⟩
  exact validate_ok_of_wellformed payload ms items hm hmethod hsources
    (not_lt.mpr hlen) hgood hnodup

theorem validate_ignores_median_value_witness :
    validate_submission_payload
      [("median_price_usd", .str "not-a-number"),
       ("sources", .arr [ptA]),
       ("calculation_method", .str "median"),
       ("calculated_at", .str "2026-02-22T00:00:05Z"),
       ("code_or_logs", .str "logs")] 1 = .ok () :=
  validate_ignores_median_value _ 1 (.str "not-a-number") [ptA] rfl rfl rfl rfl rfl
    (by decide) (by with_unfolding_all decide) (by decide)

lemma extractPrices_ok_of_good : ∀ (pts : List Json),
    (∀ p ∈ pts, isGoodPoint p = true) → ∃ qs, extractPrices pts = .ok qs := by
  intro pts
  induction pts with
  | nil => exact fun _ => ⟨[], rfl⟩
  | cons item rest ih =>
    intro hgood
    obtain ⟨kvs, name, q, t, hitem, ha, hp, hq, ht, hz⟩ :=
      isGoodPoint_elim (hgood item (List.mem_cons_self item rest))
    subst hitem
    obtain ⟨qs, hqs⟩ := ih (fun p hp2 => hgood p (List.mem_cons_of_mem _ hp2))
    refine ⟨q :: qs, ?_⟩
    unfold extractPrices getPrice
    simp only [pyIndexStr, hp, pyFloat, hqs]

theorem build_validate_roundtrip (now : String) (pts : List Json) (code : String)
    (ms : Int) (hms : 1 ≤ ms) (hq : ms ≤ (pts.length : Int))
    (hgood : ∀ p ∈ pts, isGoodPoint p = true)
    (hnodup : (pts.map entryApi).Nodup) :
    ∃ rec, build_submission now pts code ms = .ok (.obj rec) ∧
      validate_submission_payload rec ms = .ok () := by
  obtain ⟨qs, hex⟩ := extractPrices_ok_of_good pts hgood
  have hne : pts ≠ [] := by
    intro hc
    rw [hc] at hq
    simp only [List.length_nil, Nat.cast_zero] at hq
    omega
  refine ⟨_, build_submission_ok now pts code ms qs hex hne hq, ?_⟩
  apply validate_ok_of_wellformed _ ms pts
  · rfl
  · rfl
  · rfl
  · exact not_lt.mpr hq
  · exact hgood
  · exact hnodup

theorem build_validate_roundtrip_witness :
    ∃ rec, build_submission "2026-02-22T00:00:04Z" [ptA, ptB, ptC] "code+logs" 3 =
        .ok (.obj rec) ∧
      validate_submission_payload rec 3 = .ok () :=
  build_validate_roundtrip "2026-02-22T00:00:04Z" [ptA, ptB, ptC] "code+logs" 3
    (by decide) (by decide) (by with_unfolding_all decide) (by decide)

theorem validate_rejects_duplicate_api :
    (∀ (payload : List (String × Json)) (ms : Int) (items : List Json),
      missingFields payload = [] →
      dlookup payload "calculation_method" = some (.str "median") →
      dlookup payload "sources" = some (.arr items) →
      ¬ (items.length : Int) < ms →
      (∀ i ∈ items, isGoodPoint i = true) →
      ¬ (items.map entryApi).Nodup →
      ∃ a, validate_submission_payload payload ms =
          .error (.valueError "Duplicate API source found" [.str a]) ∧
        2 ≤ (items.map entryApi).count a) ∧
    (∀ (payload : List (String × Json)) (ms : Int) (items : List Json),
      validate_submission_payload payload ms = .ok () →
      dlookup payload "sources" = some (.arr items) →
      (items.map entryApi).Nodup) := by
  constructor
  · intro payload ms items hm hmethod hsources hlen hgood hnodup
    rw [validate_eq_check payload ms items hm hmethod hsources hlen]
    obtain ⟨a, herr, hmem, hrest⟩ := check_dup_error items [] hgood (Or.inl hnodup)
    refine ⟨a, herr, ?_⟩
    rcases hrest with hin | hcount
    · cases hin
    · exact hcount
  · intro payload ms items hok hsources
    by_cases hm : missingFields payload = []
    · unfold validate_submission_payload at hok
      rw [hm] at hok
      simp only [sortStrings, List.insertionSort, List.isEmpty_nil, Bool.not_true,
        Bool.false_eq_true, if_false] at hok
      split at hok
      · cases hok
      · split at hok
        · cases hok
        · rw [show dictIndex payload "sources" = .ok (.arr items) from by
            unfold dictIndex; rw [hsources]] at hok
          split at hok
          · cases hok
          · rename_i items2 heq
            injection heq with heq2
            injection heq2 with heq3
            subst heq3
            by_cases hlen : ((items.length : Int) < ms)
            · rw [if_pos hlen] at hok
              cases hok
            · rw [if_neg hlen] at hok
              exact (check_ok_nodup _ [] hok).1
          · cases hok
    · rw [validate_missing_error payload ms hm] at hok
      cases hok


theorem validate_rejects_duplicate_api_witness :
    ∃ a, validate_submission_payload dupPayload 3 =
        .error (.valueError "Duplicate API source found" [.str a]) ∧
      2 ≤ (dupSources.map entryApi).count a :=
  validate_rejects_duplicate_api.1 dupPayload 3 dupSources rfl rfl rfl (by decide)
    (by with_unfolding_all decide) (by decide)
